import Mathlib

/-!
Verification of `ap-move-lights-to-data` (`src/ap_move_lights_to_data/move_lights_to_data.py`).

The repository moves directories of astronomical "light" frames from a staging
tree (`10_Blink`) into a data store (`20_Data`) once matching calibration
frames (darks, flats, and — when needed — bias) are co-located with them.

This file shallowly embeds the Python source:
* strings are Lean `String`s, manipulated through their `List Char` data so
  that every operation reduces in the kernel;
* `pathlib.Path` values are `PyPath` (an `absolute` flag plus the list of
  path components, mirroring `PurePosixPath.parts`);
* the filesystem seen by `os.walk` is a `List WalkEntry`;
* external collaborators (`ap_common.replace_env_vars`, the exceptions
  `shutil.move` may raise, and the `matching` module's
  `check_calibration_status`) are parameters of the embedded functions;
* the `matching`/`config` modules are not part of the sources at hand, so
  `check_calibration_status` and its helpers are modelled from the design
  document (see the doc comments below);
* console printing is not modelled; filesystem mutations are collected as an
  explicit `FsEffect` trace.
-/

/-- Lowercase one character, as Python `str.lower` does on ASCII input
(embedding of the `f.lower()` / `reason.lower()` calls in the source). -/
def chLower (c : Char) : Char :=
  if 65 ≤ c.toNat ∧ c.toNat ≤ 90 then Char.ofNat (c.toNat + 32) else c

/-- Lowercase a string (Python `str.lower`). -/
def lowerStr (s : String) : String :=
  String.mk (s.data.map chLower)

/-- Boolean list-prefix test, used for path containment and string suffix
tests; written out so it reduces in the kernel. -/
def listPrefixOf {α : Type} [DecidableEq α] : List α → List α → Bool
  | [], _ => true
  | _ :: _, [] => false
  | a :: p, b :: s => if a = b then listPrefixOf p s else false

/-- Boolean substring test (Python `pat in s`). -/
def listInfixOf {α : Type} [DecidableEq α] (p : List α) : List α → Bool
  | [] => p.isEmpty
  | b :: rest => listPrefixOf p (b :: rest) || listInfixOf p rest

/-- Python `pat in s` on strings. -/
def strContains (s pat : String) : Bool :=
  listInfixOf pat.data s.data

/-- Python `s.endswith(suf)`. -/
def strEndsWith (s suf : String) : Bool :=
  listPrefixOf suf.data.reverse s.data.reverse

/-- A parsed `pathlib` path: the `absolute` flag mirrors the `'/'` anchor of
`PurePosixPath.parts`, `comps` the remaining parts (empty strings and `"."`
segments are collapsed by `pathlib`). -/
structure PyPath where
  absolute : Bool
  comps : List String
deriving DecidableEq, Repr

/-- Split a character list at `'/'` separators. -/
def splitSlash (cs : List Char) (acc : List Char) : List String :=
  match cs with
  | [] => [String.mk acc.reverse]
  | c :: rest =>
      if c = '/' then String.mk acc.reverse :: splitSlash rest []
      else splitSlash rest (c :: acc)

/-- Embed `pathlib.Path(s)`: record whether the path is absolute and keep the
nonempty, non-`"."` components. -/
def parsePath (s : String) : PyPath :=
  ⟨listPrefixOf ['/'] s.data,
   (splitSlash s.data []).filter (fun c => c ≠ "" && c ≠ ".")⟩

/-- Join components back with `'/'` separators. -/
def joinComps : List String → List Char
  | [] => []
  | [c] => c.data
  | c :: rest => c.data ++ '/' :: joinComps rest

/-- Embed `str(path)`: `"."` for an empty relative path, as in `pathlib`. -/
def pathToString (p : PyPath) : String :=
  if p.absolute then String.mk ('/' :: joinComps p.comps)
  else if p.comps.isEmpty then "." else String.mk (joinComps p.comps)

/-- Embed `path.name`: the final component, `""` when there is none. -/
def pyName (p : PyPath) : String :=
  p.comps.getLast?.getD ""

/-- Embed `path.parent` (drop the final component). -/
def pyParent (p : PyPath) : PyPath :=
  ⟨p.absolute, p.comps.dropLast⟩

/-- Embed `p / s`: an absolute right operand replaces the left one. -/
def pyJoin (p : PyPath) (s : String) : PyPath :=
  let q := parsePath s
  if q.absolute then q else ⟨p.absolute, p.comps ++ q.comps⟩

/-- Embed `p.relative_to(base)` (`None` models the `ValueError`): defined
exactly when the anchors agree and `base`'s parts are a prefix of `p`'s, in
which case the remaining parts form a relative path. -/
def relativeTo (p base : PyPath) : Option PyPath :=
  if base.absolute = p.absolute && listPrefixOf base.comps p.comps then
    some ⟨false, p.comps.drop base.comps.length⟩
  else none

/-- One entry of `os.walk`: a directory path and the plain files directly in
it (the subdirectory list only drives the traversal and is dropped). -/
structure WalkEntry where
  root : String
  files : List String
deriving DecidableEq, Repr

/-- The `has_images` scan of `find_light_directories`: some file in the
directory, lowercased, ends in `.fits`, `.fit` or `.xisf`. -/
def dirHasImages (files : List String) : Bool :=
  ["fits", "fit", "xisf"].any (fun ext =>
    files.any (fun f => strEndsWith (lowerStr f) (String.mk ('.' :: ext.data))))

/-- Embedding of `find_light_directories(source_dir, debug)`.

`env` models `ap_common.replace_env_vars`; `walk` models the `os.walk`
listing of the expanded source path.  The source collects into a `set` every
walked directory that directly contains a supported image file and returns
the `sorted` list of them; `debug` only controls printing. -/
def find_light_directories (env : String → String) (source_dir : String)
    (walk : List WalkEntry) : List String :=
  let _source_path := parsePath (env source_dir)
  let light_dirs := ((walk.filter (fun e => dirHasImages e.files)).map
    (fun e => e.root)).dedup
  List.insertionSort (fun a b => a.data ≤ b.data) light_dirs

/-- Embedding of `get_target_from_path(light_dir, source_dir)`: the path of
`light_dir` relative to the expanded source directory, falling back to the
final component when `relative_to` raises `ValueError`. -/
def get_target_from_path (env : String → String)
    (light_dir source_dir : String) : String :=
  let source_path := parsePath (env source_dir)
  let light_path := parsePath light_dir
  match relativeTo light_path source_path with
  | some rel => pathToString rel
  | none => pyName light_path

/-- Modelled from the spec: the repository's `config` module is not among the
sources at hand (only `move_lights_to_data.py` is); the frame-type tags
`TYPE_LIGHT`/`TYPE_DARK`/`TYPE_FLAT`/`TYPE_BIAS` it exports are modelled as
the four type names of the design document. -/
def TYPE_LIGHT : String := "LIGHT"

/-- Modelled from the spec: see `TYPE_LIGHT`. -/
def TYPE_DARK : String := "DARK"

/-- Modelled from the spec: see `TYPE_LIGHT`. -/
def TYPE_FLAT : String := "FLAT"

/-- Modelled from the spec: see `TYPE_LIGHT`. -/
def TYPE_BIAS : String := "BIAS"

/-- Modelled from the spec: the single fixed set-temperature tolerance shared
by dark and bias matching ("a small numeric tolerance", configuration, not a
per-call parameter).  Temperatures are modelled as integers. -/
def SETTEMP_TOLERANCE : Int := 1

/-- Modelled from the spec: a Frame Descriptor (design document section 3) —
one frame's declared type plus its comparison-relevant acquisition
parameters.  Fields are optional because the header source must yield a
descriptor even when keywords are missing. -/
structure Frame where
  file_path : String
  type : Option String
  camera : Option String
  settemp : Option Int
  gain : Option Int
  offset : Option Int
  readoutmode : Option Int
  exposure_seconds : Option Int
  date : Option String
  filter : Option String
deriving DecidableEq, Repr

/-- Modelled from the spec: `LIGHT_REQUIRED_KEYWORDS` — a light frame must
carry camera, settemp, gain, offset, readoutmode, exposure, filter and date;
one missing any of them is malformed and excluded. -/
def isValidLight (f : Frame) : Bool :=
  f.camera.isSome && f.settemp.isSome && f.gain.isSome && f.offset.isSome &&
    f.readoutmode.isSome && f.exposure_seconds.isSome && f.filter.isSome &&
    f.date.isSome

/-- The Frame Classifier's output: one ordered group per recognized type. -/
structure FramesByType where
  lights : List Frame
  darks : List Frame
  flats : List Frame
  bias : List Frame
deriving DecidableEq, Repr

/-- Modelled from the spec: `get_frames_by_type` (the `matching` module is
not among the sources at hand) — partition a directory's descriptors by
declared type; frames with an unrecognized or missing type are dropped
silently. -/
def get_frames_by_type (frames : List Frame) : FramesByType :=
  ⟨frames.filter (fun f => decide (f.type = some TYPE_LIGHT)),
   frames.filter (fun f => decide (f.type = some TYPE_DARK)),
   frames.filter (fun f => decide (f.type = some TYPE_FLAT)),
   frames.filter (fun f => decide (f.type = some TYPE_BIAS))⟩

/-- Two optional temperatures are within the shared tolerance. -/
def withinTol (a b : Option Int) : Bool :=
  match a, b with
  | some x, some y => decide ((x - y).natAbs ≤ SETTEMP_TOLERANCE.natAbs)
  | _, _ => false

/-- Modelled from the spec: the strict dark match rule — camera, gain,
offset and readoutmode equal, settemp within tolerance, exposure equal. -/
def darkMatchesStrict (light d : Frame) : Bool :=
  decide (d.camera = light.camera) && decide (d.gain = light.gain) &&
    decide (d.offset = light.offset) &&
    decide (d.readoutmode = light.readoutmode) &&
    withinTol d.settemp light.settemp &&
    decide (d.exposure_seconds = light.exposure_seconds)

/-- Modelled from the spec: the relaxed ("bias-correctable") dark match rule
— all strict keys except exposure equality. -/
def darkMatchesRelaxed (light d : Frame) : Bool :=
  decide (d.camera = light.camera) && decide (d.gain = light.gain) &&
    decide (d.offset = light.offset) &&
    decide (d.readoutmode = light.readoutmode) &&
    withinTol d.settemp light.settemp

/-- Modelled from the spec: `find_matching_darks(light, darks)` — the darks
matching under the strict rule; when none match exactly, the
bias-correctable candidates (relaxed rule) are returned instead. -/
def find_matching_darks (light : Frame) (darks : List Frame) : List Frame :=
  let strict := darks.filter (darkMatchesStrict light)
  if strict.isEmpty then darks.filter (darkMatchesRelaxed light) else strict

/-- A light is only covered through the bias-correction path: no strict dark
match but at least one relaxed one. -/
def needsBiasFor (light : Frame) (darks : List Frame) : Bool :=
  (darks.filter (darkMatchesStrict light)).isEmpty &&
    !(darks.filter (darkMatchesRelaxed light)).isEmpty

/-- Modelled from the spec: `find_matching_flats(light, flats)` — camera,
gain, offset, readoutmode and filter equal; exposure and date are not
compared. -/
def find_matching_flats (light : Frame) (flats : List Frame) : List Frame :=
  flats.filter (fun f =>
    decide (f.camera = light.camera) && decide (f.gain = light.gain) &&
      decide (f.offset = light.offset) &&
      decide (f.readoutmode = light.readoutmode) &&
      decide (f.filter = light.filter))

/-- Modelled from the spec: `find_matching_bias(light, bias_frames)` —
camera, gain, offset and readoutmode equal, settemp within the same
tolerance as darks; exposure is irrelevant. -/
def find_matching_bias (light : Frame) (bias_frames : List Frame) :
    List Frame :=
  bias_frames.filter (fun b =>
    decide (b.camera = light.camera) && decide (b.gain = light.gain) &&
      decide (b.offset = light.offset) &&
      decide (b.readoutmode = light.readoutmode) &&
      withinTol b.settemp light.settemp)

/-- The verdict object of `check_calibration_status`, with the fields the
orchestrator reads from the returned dict. -/
structure CalibrationStatus where
  has_lights : Bool
  light_count : Nat
  dark_count : Nat
  flat_count : Nat
  bias_count : Nat
  needs_bias : Bool
  is_complete : Bool
  reason : String
deriving DecidableEq, Repr

/-- Modelled from the spec: `check_calibration_status` (the `matching` module
is not among the sources at hand) — the Completeness Evaluator of design
document section 4.3.  Classify the directory's frames; malformed lights are
excluded; with no (valid) lights the verdict is "No light frames found".
Otherwise evaluate darks for every light (first failure wins), then flats,
then — for the lights needing it — bias; the count fields always hold the raw
per-type inventory. -/
def check_calibration_status (frames : List Frame) : CalibrationStatus :=
  let g := get_frames_by_type frames
  let lights := g.lights.filter isValidLight
  let needsB := lights.any (fun l => needsBiasFor l g.darks)
  let base : CalibrationStatus :=
    ⟨false, g.lights.length, g.darks.length, g.flats.length, g.bias.length,
     false, false, ""⟩
  if lights.isEmpty then
    { base with reason := "No light frames found" }
  else if lights.any (fun l => (find_matching_darks l g.darks).isEmpty) then
    { base with has_lights := true, needs_bias := needsB,
                reason := "No matching dark frames found" }
  else if lights.any (fun l => (find_matching_flats l g.flats).isEmpty) then
    { base with has_lights := true, needs_bias := needsB,
                reason := "No matching flat frames found" }
  else if lights.any (fun l =>
      needsBiasFor l g.darks && (find_matching_bias l g.bias).isEmpty) then
    { base with has_lights := true, needs_bias := needsB,
                reason := "No matching bias frames found" }
  else
    { base with has_lights := true, needs_bias := needsB,
                is_complete := true }

/-- A filesystem mutation performed by the orchestrator. -/
inductive FsEffect where
  | mkdirParents (path : PyPath)
  | moveTree (src : String) (dest : PyPath)
  | cleanupEmptyDirs (root : PyPath)
deriving DecidableEq, Repr

/-- Embedding of `move_directory(source, dest, debug, dry_run)`.

`raises` models whether the `try` block (parent `mkdir` plus `shutil.move`)
raises an exception; on an exception the error is printed and `False`
returned.  A dry run returns `True` without touching the filesystem; a
successful real run creates the destination's parent and moves the tree.
The returned list is the trace of filesystem mutations. -/
def move_directory (source : String) (dest : PyPath)
    (debug dry_run raises : Bool) : Bool × List FsEffect :=
  let _ := debug
  if dry_run then (true, [])
  else if raises then (false, [])
  else (true, [FsEffect.mkdirParents (pyParent dest),
               FsEffect.moveTree source dest])

/-- The `results` dict of `process_light_directories`. -/
structure Results where
  moved : Nat
  skipped_no_lights : Nat
  skipped_no_darks : Nat
  skipped_no_flats : Nat
  skipped_no_bias : Nat
  errors : Nat
deriving DecidableEq, Repr

/-- The initial `results` dict (all counters zero). -/
def results0 : Results := ⟨0, 0, 0, 0, 0, 0⟩

/-- Sum of the six counters. -/
def sumResults (r : Results) : Nat :=
  r.moved + r.skipped_no_lights + r.skipped_no_darks + r.skipped_no_flats +
    r.skipped_no_bias + r.errors

/-- Output of the per-directory loop of `process_light_directories`: the
final counters, the `(source, destination)` of every `move_directory` call,
and the filesystem mutations performed. -/
structure LoopOut where
  results : Results
  attempts : List (String × PyPath)
  effects : List FsEffect
deriving DecidableEq, Repr

/-- Full output of `process_light_directories`: the loop output plus whether
the empty-directory cleanup (`ap_common.delete_empty_directories`) ran. -/
structure RunOutput where
  results : Results
  attempts : List (String × PyPath)
  effects : List FsEffect
  cleanupCalled : Bool
deriving DecidableEq, Repr

/-- The `for image_dir in image_dirs` loop of `process_light_directories`.

`statusOf` models `check_calibration_status` on each directory (the real one
reads frame headers from the filesystem); `raisesOf` models which moves
raise.  Per directory: no lights counts as `skipped_no_lights`; an
incomplete status is tallied by the first of "dark"/"flat"/"bias" found in
the lowercased reason; otherwise the directory is moved to
`dest_path / relative_path` and `moved` or `errors` is bumped by the move's
outcome. -/
def processDirs (statusOf : String → CalibrationStatus)
    (raisesOf : String → Bool) (env : String → String) (source_dir : String)
    (dest_path : PyPath) (debug dry_run : Bool) :
    List String → Results → LoopOut
  | [], acc => ⟨acc, [], []⟩
  | image_dir :: rest, acc =>
    let relative_path := get_target_from_path env image_dir source_dir
    let status := statusOf image_dir
    if !status.has_lights then
      processDirs statusOf raisesOf env source_dir dest_path debug dry_run
        rest { acc with skipped_no_lights := acc.skipped_no_lights + 1 }
    else if !status.is_complete then
      let reason := status.reason
      let acc' :=
        if strContains (lowerStr reason) "dark" then
          { acc with skipped_no_darks := acc.skipped_no_darks + 1 }
        else if strContains (lowerStr reason) "flat" then
          { acc with skipped_no_flats := acc.skipped_no_flats + 1 }
        else if strContains (lowerStr reason) "bias" then
          { acc with skipped_no_bias := acc.skipped_no_bias + 1 }
        else acc
      processDirs statusOf raisesOf env source_dir dest_path debug dry_run
        rest acc'
    else
      let dest_full := pyJoin dest_path relative_path
      let mv := move_directory image_dir dest_full debug dry_run
        (raisesOf image_dir)
      let acc' :=
        if mv.1 then { acc with moved := acc.moved + 1 }
        else { acc with errors := acc.errors + 1 }
      let out := processDirs statusOf raisesOf env source_dir dest_path debug
        dry_run rest acc'
      ⟨out.results, (image_dir, dest_full) :: out.attempts,
       mv.2 ++ out.effects⟩

/-- Embedding of `process_light_directories(source_dir, dest_dir, debug,
dry_run)`: find the image directories, loop over them, and afterwards — only
on a non-dry run that moved at least one directory — clean up empty
directories under the source root. -/
def process_light_directories (statusOf : String → CalibrationStatus)
    (raisesOf : String → Bool) (env : String → String)
    (source_dir dest_dir : String) (debug dry_run : Bool)
    (walk : List WalkEntry) : RunOutput :=
  let source_path := parsePath (env source_dir)
  let dest_path := parsePath (env dest_dir)
  let image_dirs := find_light_directories env source_dir walk
  if image_dirs.isEmpty then ⟨results0, [], [], false⟩
  else
    let out := processDirs statusOf raisesOf env source_dir dest_path debug
      dry_run image_dirs results0
    let cleanup := !dry_run && decide (out.results.moved > 0)
    ⟨out.results, out.attempts,
     out.effects ++ (if cleanup then [FsEffect.cleanupEmptyDirs source_path]
       else []),
     cleanup⟩

/-- A status whose incomplete reason can be tallied: either there are no
lights, or the status is complete, or the lowercased reason mentions one of
"dark"/"flat"/"bias". -/
def tallyableStatus (s : CalibrationStatus) : Prop :=
  s.has_lights = false ∨ s.is_complete = true ∨
    (strContains (lowerStr s.reason) "dark" ||
     strContains (lowerStr s.reason) "flat" ||
     strContains (lowerStr s.reason) "bias") = true

lemma listPrefixOf_iff {α : Type} [DecidableEq α] :
    ∀ p s : List α, listPrefixOf p s = true ↔ ∃ t, s = p ++ t := by
  intro p
  induction p with
  | nil => intro s; simp [listPrefixOf]
  | cons a p ih =>
    intro s
    cases s with
    | nil => simp [listPrefixOf]
    | cons b s' =>
      by_cases hab : a = b
      · subst hab
        simp [listPrefixOf, ih]
      · have hba : ¬ b = a := fun h => hab h.symm
        simp [listPrefixOf, hab, hba]

lemma processDirs_dry_effects (statusOf : String → CalibrationStatus)
    (raisesOf : String → Bool) (env : String → String) (source_dir : String)
    (dest_path : PyPath) (debug : Bool) :
    ∀ (dirs : List String) (acc : Results),
    (processDirs statusOf raisesOf env source_dir dest_path debug true dirs
      acc).effects = [] := by
  intro dirs
  induction dirs with
  | nil => intro acc; rfl
  | cons d rest ih =>
    intro acc
    cases hl : (statusOf d).has_lights with
    | false => simp [processDirs, hl, ih]
    | true =>
      cases hc : (statusOf d).is_complete with
      | false => simp [processDirs, hl, hc, ih]
      | true => simp [processDirs, hl, hc, ih, move_directory]

lemma processDirs_attempts (statusOf : String → CalibrationStatus)
    (raisesOf : String → Bool) (env : String → String) (source_dir : String)
    (dest_path : PyPath) (debug dry_run : Bool) :
    ∀ (dirs : List String) (acc : Results),
    (processDirs statusOf raisesOf env source_dir dest_path debug dry_run
      dirs acc).attempts
      = dirs.filterMap (fun d =>
          if (statusOf d).has_lights && (statusOf d).is_complete then
            some (d, pyJoin dest_path (get_target_from_path env d source_dir))
          else none) := by
  intro dirs
  induction dirs with
  | nil => intro acc; rfl
  | cons d rest ih =>
    intro acc
    cases hl : (statusOf d).has_lights with
    | false => simp [processDirs, hl, ih, List.filterMap_cons]
    | true =>
      cases hc : (statusOf d).is_complete with
      | false => simp [processDirs, hl, hc, ih, List.filterMap_cons]
      | true => simp [processDirs, hl, hc, ih, List.filterMap_cons]

lemma check_tallyable (frames : List Frame) :
    tallyableStatus (check_calibration_status frames) := by
  simp only [tallyableStatus, check_calibration_status]
  split_ifs <;> simp <;> decide

lemma processDirs_sum (statusOf : String → CalibrationStatus)
    (raisesOf : String → Bool) (env : String → String) (source_dir : String)
    (dest_path : PyPath) (debug dry_run : Bool)
    (HR : ∀ d, tallyableStatus (statusOf d)) :
    ∀ (dirs : List String) (acc : Results),
    sumResults (processDirs statusOf raisesOf env source_dir dest_path debug
      dry_run dirs acc).results = dirs.length + sumResults acc := by
  intro dirs
  induction dirs with
  | nil => intro acc; simp [processDirs]
  | cons d rest ih =>
    intro acc
    cases hl : (statusOf d).has_lights with
    | false =>
      have hstep : processDirs statusOf raisesOf env source_dir dest_path
          debug dry_run (d :: rest) acc
          = processDirs statusOf raisesOf env source_dir dest_path debug
              dry_run rest
              { acc with skipped_no_lights := acc.skipped_no_lights + 1 } := by
        simp [processDirs, hl]
      rw [hstep, ih]
      simp [sumResults]
      omega
    | true =>
      cases hc : (statusOf d).is_complete with
      | true =>
        cases hm : (move_directory d
            (pyJoin dest_path (get_target_from_path env d source_dir)) debug
            dry_run (raisesOf d)).1 with
        | true =>
          have hstep : (processDirs statusOf raisesOf env source_dir
              dest_path debug dry_run (d :: rest) acc).results
              = (processDirs statusOf raisesOf env source_dir dest_path debug
                  dry_run rest { acc with moved := acc.moved + 1 }).results := by
            simp [processDirs, hl, hc, hm]
          rw [hstep, ih]
          simp [sumResults]
          omega
        | false =>
          have hstep : (processDirs statusOf raisesOf env source_dir
              dest_path debug dry_run (d :: rest) acc).results
              = (processDirs statusOf raisesOf env source_dir dest_path debug
                  dry_run rest { acc with errors := acc.errors + 1 }).results := by
            simp [processDirs, hl, hc, hm]
          rw [hstep, ih]
          simp [sumResults]
          omega
      | false =>
        rcases HR d with h | h | h
        · rw [hl] at h; cases h
        · rw [hc] at h; cases h
        · by_cases hd : strContains (lowerStr (statusOf d).reason) "dark"
            = true
          · have hstep : processDirs statusOf raisesOf env source_dir
                dest_path debug dry_run (d :: rest) acc
                = processDirs statusOf raisesOf env source_dir dest_path debug
                    dry_run rest
                    { acc with skipped_no_darks := acc.skipped_no_darks + 1 } := by
              simp [processDirs, hl, hc, hd]
            rw [hstep, ih]
            simp [sumResults]
            omega
          · by_cases hf : strContains (lowerStr (statusOf d).reason) "flat"
              = true
            · have hstep : processDirs statusOf raisesOf env source_dir
                  dest_path debug dry_run (d :: rest) acc
                  = processDirs statusOf raisesOf env source_dir dest_path
                      debug dry_run rest
                      { acc with skipped_no_flats :=
                          acc.skipped_no_flats + 1 } := by
                simp [processDirs, hl, hc, hd, hf]
              rw [hstep, ih]
              simp [sumResults]
              omega
            · have hb : strContains (lowerStr (statusOf d).reason) "bias"
                  = true := by
                rw [Bool.or_eq_true, Bool.or_eq_true] at h
                tauto
              have hstep : processDirs statusOf raisesOf env source_dir
                  dest_path debug dry_run (d :: rest) acc
                  = processDirs statusOf raisesOf env source_dir dest_path
                      debug dry_run rest
                      { acc with skipped_no_bias :=
                          acc.skipped_no_bias + 1 } := by
                simp [processDirs, hl, hc, hd, hf, hb]
              rw [hstep, ih]
              simp [sumResults]
              omega

lemma processDirs_congr (s1 s2 : String → CalibrationStatus)
    (raisesOf : String → Bool) (env : String → String) (source_dir : String)
    (dest_path : PyPath) (debug dry_run : Bool)
    (h : ∀ d, (s1 d).has_lights = (s2 d).has_lights ∧
      (s1 d).is_complete = (s2 d).is_complete ∧
      (s1 d).reason = (s2 d).reason) :
    ∀ (dirs : List String) (acc : Results),
    processDirs s1 raisesOf env source_dir dest_path debug dry_run dirs acc
      = processDirs s2 raisesOf env source_dir dest_path debug dry_run dirs
          acc := by
  intro dirs
  induction dirs with
  | nil => intro acc; rfl
  | cons d rest ih =>
    intro acc
    obtain ⟨h1, h2, h3⟩ := h d
    cases hl : (s2 d).has_lights with
    | false =>
      rw [hl] at h1
      simp [processDirs, hl, h1, ih]
    | true =>
      rw [hl] at h1
      cases hc : (s2 d).is_complete with
      | false =>
        rw [hc] at h2
        simp [processDirs, hl, h1, hc, h2, h3, ih]
      | true =>
        rw [hc] at h2
        simp [processDirs, hl, h1, hc, h2, ih]

/-- C1: for every frame list with zero LIGHT-classified frames,
`check_calibration_status` returns `has_lights = false`, `is_complete =
false` and reason "No light frames found", whatever dark/flat/bias frames
are present; the count fields report the calibration inventory. -/
theorem claim_C1_no_lights (frames : List Frame)
    (h : ∀ f ∈ frames, f.type ≠ some TYPE_LIGHT) :
    check_calibration_status frames
      = { has_lights := false,
          light_count := 0,
          dark_count := (frames.filter
            (fun f => decide (f.type = some TYPE_DARK))).length,
          flat_count := (frames.filter
            (fun f => decide (f.type = some TYPE_FLAT))).length,
          bias_count := (frames.filter
            (fun f => decide (f.type = some TYPE_BIAS))).length,
          needs_bias := false,
          is_complete := false,
          reason := "No light frames found" } := by
  have hl : frames.filter (fun f => decide (f.type = some TYPE_LIGHT))
      = [] := by
    rw [List.filter_eq_nil_iff]
    intro f hf
    simpa using h f hf
  simp [check_calibration_status, get_frames_by_type, hl]

/-- Witness for C1 at a directory holding one dark and one flat frame. -/
theorem claim_C1_no_lights_witness :
    check_calibration_status
      [⟨"d1.fits", some "DARK", some "C1", some (-10), some 100, some 10,
        some 0, some 300, some "2024-01-01", none⟩,
       ⟨"f1.fits", some "FLAT", some "C1", some (-10), some 100, some 10,
        some 0, some 3, some "2024-01-01", some "Ha"⟩]
      = { has_lights := false, light_count := 0, dark_count := 1,
          flat_count := 1, bias_count := 0, needs_bias := false,
          is_complete := false, reason := "No light frames found" } := by
  have h := claim_C1_no_lights
    [⟨"d1.fits", some "DARK", some "C1", some (-10), some 100, some 10,
      some 0, some 300, some "2024-01-01", none⟩,
     ⟨"f1.fits", some "FLAT", some "C1", some (-10), some 100, some 10,
      some 0, some 3, some "2024-01-01", some "Ha"⟩]
    (by decide)
  simpa using h

/-- C2: a directory found by the scan gets a `move_directory` call exactly
when its status has both `has_lights` and `is_complete`, the destination
being the destination root joined with the directory's path relative to the
source root; all other directories are skipped with no call. -/
theorem claim_C2_move_iff_complete (statusOf : String → CalibrationStatus)
    (raisesOf : String → Bool) (env : String → String)
    (source_dir dest_dir : String) (debug dry_run : Bool)
    (walk : List WalkEntry) :
    (process_light_directories statusOf raisesOf env source_dir dest_dir
      debug dry_run walk).attempts
      = (find_light_directories env source_dir walk).filterMap (fun d =>
          if (statusOf d).has_lights && (statusOf d).is_complete then
            some (d, pyJoin (parsePath (env dest_dir))
              (get_target_from_path env d source_dir))
          else none) := by
  simp only [process_light_directories]
  cases he : (find_light_directories env source_dir walk).isEmpty with
  | true =>
    rw [List.isEmpty_iff] at he
    simp [he]
  | false =>
    simp only [Bool.false_eq_true, if_neg, ite_false]
    exact processDirs_attempts statusOf raisesOf env source_dir
      (parsePath (env dest_dir)) debug dry_run
      (find_light_directories env source_dir walk) results0

/-- C3: when a move raises, `move_directory` returns `False`, the loop adds
one to `errors` for that directory and goes on to process every remaining
directory unchanged. -/
theorem claim_C3_move_failure_counted (statusOf : String → CalibrationStatus)
    (raisesOf : String → Bool) (env : String → String) (source_dir : String)
    (dest_path : PyPath) (debug : Bool) (image_dir : String)
    (rest : List String) (acc : Results)
    (hl : (statusOf image_dir).has_lights = true)
    (hc : (statusOf image_dir).is_complete = true)
    (hr : raisesOf image_dir = true) :
    (move_directory image_dir
      (pyJoin dest_path (get_target_from_path env image_dir source_dir))
      debug false (raisesOf image_dir)).1 = false ∧
    processDirs statusOf raisesOf env source_dir dest_path debug false
      (image_dir :: rest) acc
      = ⟨(processDirs statusOf raisesOf env source_dir dest_path debug false
            rest { acc with errors := acc.errors + 1 }).results,
         (image_dir,
          pyJoin dest_path (get_target_from_path env image_dir source_dir))
           :: (processDirs statusOf raisesOf env source_dir dest_path debug
                false rest { acc with errors := acc.errors + 1 }).attempts,
         (processDirs statusOf raisesOf env source_dir dest_path debug false
            rest { acc with errors := acc.errors + 1 }).effects⟩ := by
  constructor
  · simp [move_directory, hr]
  · simp [processDirs, hl, hc, hr, move_directory]

/-- Witness for C3: one complete directory whose move raises, followed by an
empty tail. -/
theorem claim_C3_move_failure_counted_witness :
    (move_directory "/s/a"
      (pyJoin ⟨true, ["d"]⟩
        (get_target_from_path (fun s => s) "/s/a" "/s"))
      false false true).1 = false ∧
    processDirs
      (fun _ => ⟨true, 1, 1, 1, 0, false, true, ""⟩) (fun _ => true)
      (fun s => s) "/s" ⟨true, ["d"]⟩ false false ["/s/a"] results0
      = ⟨(processDirs (fun _ => ⟨true, 1, 1, 1, 0, false, true, ""⟩)
            (fun _ => true) (fun s => s) "/s" ⟨true, ["d"]⟩ false false []
            { results0 with errors := results0.errors + 1 }).results,
         ("/s/a",
          pyJoin ⟨true, ["d"]⟩
            (get_target_from_path (fun s => s) "/s/a" "/s"))
           :: (processDirs (fun _ => ⟨true, 1, 1, 1, 0, false, true, ""⟩)
                (fun _ => true) (fun s => s) "/s" ⟨true, ["d"]⟩ false false
                [] { results0 with errors := results0.errors + 1 }).attempts,
         (processDirs (fun _ => ⟨true, 1, 1, 1, 0, false, true, ""⟩)
            (fun _ => true) (fun s => s) "/s" ⟨true, ["d"]⟩ false false []
            { results0 with errors := results0.errors + 1 }).effects⟩ :=
  claim_C3_move_failure_counted
    (fun _ => ⟨true, 1, 1, 1, 0, false, true, ""⟩) (fun _ => true)
    (fun s => s) "/s" ⟨true, ["d"]⟩ false "/s/a" [] results0 rfl rfl rfl

/-- C4: over the statuses the Completeness Evaluator actually produces,
every examined directory bumps exactly one of the six counters (lights
missing, the dark/flat/bias skip bucket named by the reason, moved, or
errors), so the counters sum to the number of directories examined. -/
theorem claim_C4_counter_sum (framesOf : String → List Frame)
    (raisesOf : String → Bool) (env : String → String)
    (source_dir dest_dir : String) (debug dry_run : Bool)
    (walk : List WalkEntry) :
    sumResults (process_light_directories
      (fun d => check_calibration_status (framesOf d)) raisesOf env
      source_dir dest_dir debug dry_run walk).results
      = (find_light_directories env source_dir walk).length := by
  simp only [process_light_directories]
  cases he : (find_light_directories env source_dir walk).isEmpty with
  | true =>
    rw [List.isEmpty_iff] at he
    simp [he, results0, sumResults]
  | false =>
    simp only [Bool.false_eq_true, if_neg, ite_false]
    rw [processDirs_sum _ _ _ _ _ _ _
      (fun d => check_tallyable (framesOf d))]
    simp [results0, sumResults]

/-- C5: the directory scan returns a sorted, duplicate-free list holding
exactly the walked directories that directly contain a file whose lowercased
name ends in ".fits", ".fit" or ".xisf". -/
theorem claim_C5_scan_exact (env : String → String) (source_dir : String)
    (walk : List WalkEntry) :
    List.Sorted (fun a b : String => a.data ≤ b.data)
      (find_light_directories env source_dir walk) ∧
    (find_light_directories env source_dir walk).Nodup ∧
    ∀ d, d ∈ find_light_directories env source_dir walk ↔
      ∃ e ∈ walk, e.root = d ∧ ∃ f ∈ e.files,
        ∃ ext ∈ (["fits", "fit", "xisf"] : List String),
          strEndsWith (lowerStr f) (String.mk ('.' :: ext.data)) = true := by
  refine ⟨?_, ?_, ?_⟩
  · haveI : IsTotal String (fun a b : String => a.data ≤ b.data) :=
      ⟨fun a b => le_total a.data b.data⟩
    haveI : IsTrans String (fun a b : String => a.data ≤ b.data) :=
      ⟨fun a b c hab hbc => le_trans hab hbc⟩
    exact List.sorted_insertionSort _ _
  · exact (List.perm_insertionSort _ _).nodup_iff.mpr (List.nodup_dedup _)
  · intro d
    simp only [find_light_directories, List.mem_insertionSort,
      List.mem_dedup, List.mem_map, List.mem_filter, dirHasImages,
      List.any_eq_true]
    constructor
    · rintro ⟨e, ⟨hew, ext, hext, f, hf, hend⟩, rfl⟩
      exact ⟨e, hew, rfl, f, hf, ext, hext, hend⟩
    · rintro ⟨e, hew, rfl, f, hf, ext, hext, hend⟩
      exact ⟨e, ⟨hew, ext, hext, f, hf, hend⟩, rfl⟩

/-- C6: evaluation of the scan on a directory holding an image file and a
subdirectory that also holds one — both are returned, and the first is a
proper ancestor of the second, so the returned set is not restricted to leaf
directories. -/
theorem claim_C6_nonleaf_returned :
    find_light_directories (fun s => s) "src"
      [⟨"a", ["x.fits"]⟩, ⟨"a/b", ["y.fits"]⟩] = ["a", "a/b"] ∧
    listPrefixOf ("a".data ++ ['/']) "a/b".data = true := by
  decide

/-- C7: two status oracles agreeing on `has_lights`, `is_complete` and
`reason` — whatever their counts and `needs_bias` flags — produce identical
runs: the same counters, the same move calls, the same filesystem effects. -/
theorem claim_C7_counts_noninterference
    (s1 s2 : String → CalibrationStatus) (raisesOf : String → Bool)
    (env : String → String) (source_dir dest_dir : String)
    (debug dry_run : Bool) (walk : List WalkEntry)
    (h : ∀ d, (s1 d).has_lights = (s2 d).has_lights ∧
      (s1 d).is_complete = (s2 d).is_complete ∧
      (s1 d).reason = (s2 d).reason) :
    process_light_directories s1 raisesOf env source_dir dest_dir debug
      dry_run walk
      = process_light_directories s2 raisesOf env source_dir dest_dir debug
          dry_run walk := by
  simp only [process_light_directories]
  rw [processDirs_congr s1 s2 raisesOf env source_dir
    (parsePath (env dest_dir)) debug dry_run h]

/-- Witness for C7: two statuses sharing the decision fields but with wildly
different counts and bias flags give identical runs. -/
theorem claim_C7_counts_noninterference_witness :
    process_light_directories
      (fun _ => ⟨true, 1, 0, 0, 0, false, false,
        "No matching dark frames found"⟩)
      (fun _ => false) (fun s => s) "/s" "/d" false false
      [⟨"/s/a", ["x.fits"]⟩]
      = process_light_directories
          (fun _ => ⟨true, 99, 7, 8, 9, true, false,
            "No matching dark frames found"⟩)
          (fun _ => false) (fun s => s) "/s" "/d" false false
          [⟨"/s/a", ["x.fits"]⟩] :=
  claim_C7_counts_noninterference
    (fun _ => ⟨true, 1, 0, 0, 0, false, false,
      "No matching dark frames found"⟩)
    (fun _ => ⟨true, 99, 7, 8, 9, true, false,
      "No matching dark frames found"⟩)
    (fun _ => false) (fun s => s) "/s" "/d" false false
    [⟨"/s/a", ["x.fits"]⟩]
    (fun _ => ⟨rfl, rfl, rfl⟩)

/-- C8: a dry run changes nothing: `move_directory` reports success with no
filesystem effect, and a dry `process_light_directories` run performs no
effect at all and skips the empty-directory cleanup. -/
theorem claim_C8_dry_run_pure :
    (∀ (source : String) (dest : PyPath) (debug raises : Bool),
      move_directory source dest debug true raises = (true, [])) ∧
    (∀ (statusOf : String → CalibrationStatus) (raisesOf : String → Bool)
      (env : String → String) (source_dir dest_dir : String) (debug : Bool)
      (walk : List WalkEntry),
      (process_light_directories statusOf raisesOf env source_dir dest_dir
        debug true walk).effects = [] ∧
      (process_light_directories statusOf raisesOf env source_dir dest_dir
        debug true walk).cleanupCalled = false) := by
  constructor
  · intro source dest debug raises
    rfl
  · intro statusOf raisesOf env source_dir dest_dir debug walk
    simp only [process_light_directories]
    cases he : (find_light_directories env source_dir walk).isEmpty with
    | true => simp
    | false =>
      simp only [Bool.false_eq_true, if_neg, ite_false]
      simp [processDirs_dry_effects statusOf raisesOf env source_dir
        (parsePath (env dest_dir)) debug]

/-- C9: the empty-directory cleanup of the source tree runs exactly when the
run is not dry and at least one directory was moved. -/
theorem claim_C9_cleanup_iff (statusOf : String → CalibrationStatus)
    (raisesOf : String → Bool) (env : String → String)
    (source_dir dest_dir : String) (debug dry_run : Bool)
    (walk : List WalkEntry) :
    (process_light_directories statusOf raisesOf env source_dir dest_dir
      debug dry_run walk).cleanupCalled = true
      ↔ dry_run = false ∧
        0 < (process_light_directories statusOf raisesOf env source_dir
          dest_dir debug dry_run walk).results.moved := by
  simp only [process_light_directories]
  cases he : (find_light_directories env source_dir walk).isEmpty with
  | true => simp [results0]
  | false =>
    simp only [Bool.false_eq_true, if_neg, ite_false]
    simp [Bool.and_eq_true, Bool.not_eq_true']

/-- C10: `get_target_from_path` always returns a value: the stringified
relative path when the light directory sits under the expanded source
directory, and the light directory's final component otherwise. -/
theorem claim_C10_target_total (env : String → String)
    (light_dir source_dir : String) :
    (∀ rest : List String,
      (parsePath light_dir).absolute
          = (parsePath (env source_dir)).absolute →
      (parsePath light_dir).comps
          = (parsePath (env source_dir)).comps ++ rest →
      get_target_from_path env light_dir source_dir
        = pathToString ⟨false, rest⟩) ∧
    (((parsePath light_dir).absolute
          ≠ (parsePath (env source_dir)).absolute ∨
      ∀ rest : List String,
        (parsePath light_dir).comps
            ≠ (parsePath (env source_dir)).comps ++ rest) →
      get_target_from_path env light_dir source_dir
        = pyName (parsePath light_dir)) := by
  constructor
  · intro rest habs hcomps
    have hcond : (decide ((parsePath (env source_dir)).absolute
        = (parsePath light_dir).absolute) &&
        listPrefixOf (parsePath (env source_dir)).comps
          (parsePath light_dir).comps) = true := by
      rw [Bool.and_eq_true]
      exact ⟨decide_eq_true habs.symm,
        (listPrefixOf_iff _ _).mpr ⟨rest, hcomps⟩⟩
    simp only [get_target_from_path, relativeTo, hcond, if_pos]
    rw [hcomps, List.drop_left]
  · intro h
    have hcond : ¬((decide ((parsePath (env source_dir)).absolute
        = (parsePath light_dir).absolute) &&
        listPrefixOf (parsePath (env source_dir)).comps
          (parsePath light_dir).comps) = true) := by
      intro hc
      rw [Bool.and_eq_true] at hc
      rcases h with h | h
      · exact h (of_decide_eq_true hc.1).symm
      · rcases (listPrefixOf_iff _ _).mp hc.2 with ⟨t, ht⟩
        exact h t ht
    simp only [get_target_from_path, relativeTo, if_neg hcond]

/-- Witness for C10: a light directory under the source root yields its
relative path. -/
theorem claim_C10_target_total_witness :
    get_target_from_path (fun s => s) "/s/m31/d1" "/s"
      = pathToString ⟨false, ["m31", "d1"]⟩ :=
  (claim_C10_target_total (fun s => s) "/s/m31/d1" "/s").1 ["m31", "d1"]
    (by decide) (by decide)
